import Mathlib

/- Verification of the invoice-automation extraction pipeline.

Shallow embedding of:
  - src/extraction/regularize_file.py   (page-group segmentation and PDF splitting)
  - src/processing/vendor_identifier.py (vendor resolution, phase-2 template validation,
                                         orchestration)
  - src/processing/build_dataframe.py   (record normalization, currency parsing,
                                         vendor-resolution fallback)

Machine text recognition, the language-model collaborator, and the MongoDB registry
are external collaborators; they are modelled as explicit parameters (oracles /
lookup functions), while all decision logic of the repository is embedded faithfully. -/

namespace InvoiceAutomation

/-! ## Document segmenter: detect_invoice_page_groups (regularize_file.py)

The per-page regex identifier scan (three prioritized patterns applied to the page
text) is abstracted as the list of per-page `found_id` results, one `Option String`
per page; the grouping state machine over those results is embedded faithfully. -/

structure SegState where
  groups : List (List Nat)
  current : List Nat
  tracking : Option String
  deriving Repr, DecidableEq

/-- One iteration of the page loop of `detect_invoice_page_groups`:
page index `i` (1-based), detected id `found`, state machine cases 1-4. -/
def detectStep (i : Nat) (found : Option String) (st : SegState) : SegState :=
  if i = 1 then
    { st with current := st.current ++ [i], tracking := found }
  else
    match found with
    | none => { st with current := st.current ++ [i] }
    | some f =>
      if some f = st.tracking then
        { st with current := st.current ++ [i] }
      else
        { groups := st.groups ++ (if st.current = [] then [] else [st.current]),
          current := [i],
          tracking := some f }

/-- The `for i, page in enumerate(reader.pages, start=1)` loop. -/
def runPages : List (Option String) → Nat → SegState → SegState
  | [], _, st => st
  | f :: rest, i, st => runPages rest (i + 1) (detectStep i f st)

/-- `detect_invoice_page_groups`, with the per-page id detection abstracted into
the input list `ids` (element `k` is the `found_id` of page `k+1`). -/
def detect_invoice_page_groups (ids : List (Option String)) : List (List Nat) :=
  let st := runPages ids 1 { groups := [], current := [], tracking := none }
  st.groups ++ (if st.current = [] then [] else [st.current])

theorem detectStep_one (f : Option String) (st : SegState) :
    detectStep 1 f st = { st with current := st.current ++ [1], tracking := f } := by
  simp [detectStep]

theorem detectStep_none (i : Nat) (st : SegState) (hi : i ≠ 1) :
    detectStep i none st = { st with current := st.current ++ [i] } := by
  simp [detectStep, hi]

theorem detectStep_same (i : Nat) (x : String) (st : SegState) (hi : i ≠ 1)
    (hx : some x = st.tracking) :
    detectStep i (some x) st = { st with current := st.current ++ [i] } := by
  simp [detectStep, hi, hx]

theorem detectStep_new (i : Nat) (x : String) (st : SegState) (hi : i ≠ 1)
    (hx : ¬ some x = st.tracking) (hc : st.current ≠ []) :
    detectStep i (some x) st
      = { groups := st.groups ++ [st.current], current := [i], tracking := some x } := by
  simp [detectStep, hi, hx, hc]

theorem range'_snoc (i : Nat) (hi : 1 ≤ i) :
    List.range' 1 (i - 1) ++ [i] = List.range' 1 i := by
  have h : i - 1 + 1 = i := by omega
  have h2 : (1 : Nat) + 1 * (i - 1) = i := by omega
  calc List.range' 1 (i - 1) ++ [i]
      = List.range' 1 (i - 1) ++ [1 + 1 * (i - 1)] := by rw [h2]
    _ = List.range' 1 ((i - 1) + 1) := (List.range'_concat 1 (i - 1)).symm
    _ = List.range' 1 i := by rw [h]

theorem runPages_inv (rest : List (Option String)) :
    ∀ (i : Nat) (st : SegState), 2 ≤ i →
    st.groups.flatten ++ st.current = List.range' 1 (i - 1) →
    st.current ≠ [] →
    (∀ g ∈ st.groups, g ≠ []) →
    ((runPages rest i st).groups.flatten ++ (runPages rest i st).current
        = List.range' 1 (i - 1 + rest.length)
      ∧ (runPages rest i st).current ≠ []
      ∧ ∀ g ∈ (runPages rest i st).groups, g ≠ []) := by
  induction rest with
  | nil =>
    intro i st hi hjoin hcur hgs
    simpa using ⟨hjoin, hcur, hgs⟩
  | cons f rest ih =>
    intro i st hi hjoin hcur hgs
    have hne1 : i ≠ 1 := by omega
    have hsnoc : st.groups.flatten ++ (st.current ++ [i]) = List.range' 1 i := by
      rw [← List.append_assoc, hjoin]
      exact range'_snoc i (by omega)
    have hstep : (detectStep i f st).groups.flatten ++ (detectStep i f st).current
          = List.range' 1 i
        ∧ (detectStep i f st).current ≠ []
        ∧ ∀ g ∈ (detectStep i f st).groups, g ≠ [] := by
      match f with
      | none =>
        rw [detectStep_none i st hne1]
        exact ⟨hsnoc, by simp, hgs⟩
      | some x =>
        by_cases hx : some x = st.tracking
        · rw [detectStep_same i x st hne1 hx]
          exact ⟨hsnoc, by simp, hgs⟩
        · rw [detectStep_new i x st hne1 hx hcur]
          refine ⟨?_, by simp, ?_⟩
          · simp only [List.flatten_append, List.flatten_cons, List.flatten_nil,
              List.append_nil]
            rw [List.append_assoc]
            exact hsnoc
          · intro g hg
            rcases List.mem_append.mp hg with hg1 | hg2
            · exact hgs g hg1
            · rcases List.mem_singleton.mp hg2 with rfl
              exact hcur
    show (runPages (f :: rest) i st).groups.flatten ++ (runPages (f :: rest) i st).current
        = List.range' 1 (i - 1 + (f :: rest).length) ∧ _ ∧ _
    have hlen : i - 1 + (f :: rest).length = (i + 1) - 1 + rest.length := by
      simp only [List.length_cons]; omega
    rw [hlen]
    have hi' : (i + 1) - 1 = i := by omega
    exact ih (i + 1) (detectStep i f st) (by omega) (by rw [hi']; exact hstep.1)
      hstep.2.1 hstep.2.2

/-- Claim C1: for every multi-page source with page_count N ≥ 1, the group sequence
returned by detect_invoice_page_groups is a partition of the pages: the concatenation
of the output groups is exactly range(1, N+1) (so no page is dropped or duplicated,
groups are pairwise disjoint and appear in increasing page order), and each group is
non-empty with internally consecutive indices. -/
theorem c1_page_groups_partition (ids : List (Option String)) (h : 1 ≤ ids.length) :
    (detect_invoice_page_groups ids).flatten = List.range' 1 ids.length
    ∧ (∀ g ∈ detect_invoice_page_groups ids, g ≠ [] ∧ g.Chain' (fun a b => b = a + 1))
    ∧ (detect_invoice_page_groups ids).Pairwise
        (fun g₁ g₂ => ∀ a ∈ g₁, ∀ b ∈ g₂, a < b) := by
  match ids, h with
  | f :: rest, _ =>
    have hstep1 : detectStep 1 f { groups := [], current := [], tracking := none }
        = { groups := [], current := [1], tracking := f } := by
      simp [detectStep_one]
    have hinv := runPages_inv rest 2 { groups := [], current := [1], tracking := f }
      (by omega) (by simp) (by simp) (by simp)
    have hrun : runPages (f :: rest) 1 { groups := [], current := [], tracking := none }
        = runPages rest 2 { groups := [], current := [1], tracking := f } := by
      show runPages rest (1 + 1) (detectStep 1 f _) = _
      rw [hstep1]
    set stF := runPages rest 2 { groups := [], current := [1], tracking := f } with hstF
    have hres : detect_invoice_page_groups (f :: rest) = stF.groups ++ [stF.current] := by
      show (runPages (f :: rest) 1 { groups := [], current := [], tracking := none }).groups
          ++ (if (runPages (f :: rest) 1
                { groups := [], current := [], tracking := none }).current = []
              then [] else [(runPages (f :: rest) 1
                { groups := [], current := [], tracking := none }).current])
        = stF.groups ++ [stF.current]
      rw [hrun, if_neg hinv.2.1]
    have hflat : (detect_invoice_page_groups (f :: rest)).flatten
        = List.range' 1 (f :: rest).length := by
      rw [hres]
      simp only [List.flatten_append, List.flatten_cons, List.flatten_nil,
        List.append_nil]
      have := hinv.1
      simp only [List.length_cons]
      have harith : 2 - 1 + rest.length = rest.length + 1 := by omega
      rw [harith] at this
      exact this
    refine ⟨hflat, ?_, ?_⟩
    · intro g hg
      have hmem : g ∈ stF.groups ++ [stF.current] := by rw [← hres]; exact hg
      have hne : g ≠ [] := by
        rcases List.mem_append.mp hmem with h1 | h2
        · exact hinv.2.2 g h1
        · rcases List.mem_singleton.mp h2 with rfl
          exact hinv.2.1
      refine ⟨hne, ?_⟩
      have hinf : g <:+: (detect_invoice_page_groups (f :: rest)).flatten :=
        List.infix_of_mem_flatten hg
      rw [hflat] at hinf
      have hchain : (List.range' 1 (f :: rest).length).Chain' (fun a b => b = a + 1) := by
        generalize (f :: rest).length = n
        induction n generalizing f with
        | zero => simp
        | succ m ihm =>
          clear hinf
          rw [List.range'_succ]
          rcases m with _ | m
          · simp
          · rw [List.range'_succ]
            refine List.Chain'.cons rfl ?_
            rw [← List.range'_succ]
            have haux : ∀ (s k : Nat), (List.range' s k).Chain' (fun a b => b = a + 1) := by
              intro s k
              induction k generalizing s with
              | zero => simp
              | succ j ihj =>
                rw [List.range'_succ]
                rcases j with _ | j
                · simp
                · rw [List.range'_succ]
                  exact List.Chain'.cons rfl (by rw [← List.range'_succ]; exact ihj (s + 1))
            exact haux 2 (m + 1)
      exact hchain.infix hinf
    · have hpw : (detect_invoice_page_groups (f :: rest)).flatten.Pairwise (· < ·) := by
        rw [hflat]
        exact List.pairwise_lt_range' 1 (f :: rest).length
      exact (List.pairwise_flatten.mp hpw).2

/-- Concrete instance of claim C1 at the two-page input [some "7", none]. -/
theorem c1_page_groups_partition_witness :
    (detect_invoice_page_groups [some "7", none]).flatten = List.range' 1 2
    ∧ (∀ g ∈ detect_invoice_page_groups [some "7", none],
        g ≠ [] ∧ g.Chain' (fun a b => b = a + 1))
    ∧ (detect_invoice_page_groups [some "7", none]).Pairwise
        (fun g₁ g₂ => ∀ a ∈ g₁, ∀ b ∈ g₂, a < b) :=
  c1_page_groups_partition [some "7", none] (by decide)

/-- Claim C2: the segmenter state machine keeps a page with no detected id, or with
the currently tracked id, in the current group; a page whose id is present and
different from the tracking id closes the current group and starts a new one; on the
five-page id sequence [100, None, 100, 200, None] the output is ((1,2,3),(4,5)). -/
theorem c2_segmenter_state_machine (i : Nat) (f : Option String) (st : SegState)
    (hi : 2 ≤ i) (hcur : st.current ≠ []) :
    ((f = none ∨ f = st.tracking) →
      detectStep i f st = { st with current := st.current ++ [i] })
    ∧ (∀ x, f = some x → some x ≠ st.tracking →
      detectStep i f st
        = { groups := st.groups ++ [st.current], current := [i], tracking := some x })
    ∧ detect_invoice_page_groups [some "100", none, some "100", some "200", none]
        = [[1, 2, 3], [4, 5]] := by
  have hne1 : i ≠ 1 := by omega
  refine ⟨?_, ?_, by rfl⟩
  · rintro (rfl | rfl)
    · exact detectStep_none i st hne1
    · rcases htr : st.tracking with _ | x
      · rw [detectStep_none i st hne1, htr]
      · rw [detectStep_same i x st hne1 htr.symm, htr]
  · rintro x rfl hx
    exact detectStep_new i x st hne1 hx hcur

/-- Concrete instance of claim C2: page 2 with no id continues group [1]; a page with
a new id closes the group; the 5-page example groups as ((1,2,3),(4,5)). -/
theorem c2_segmenter_state_machine_witness :
    detectStep 2 none { groups := [], current := [1], tracking := some "100" }
      = { groups := [], current := [1, 2], tracking := some "100" }
    ∧ detectStep 3 (some "200") { groups := [], current := [1, 2], tracking := some "100" }
      = { groups := [[1, 2]], current := [3], tracking := some "200" }
    ∧ detect_invoice_page_groups [some "100", none, some "100", some "200", none]
        = [[1, 2, 3], [4, 5]] := by
  have h1 := c2_segmenter_state_machine 2 none
    { groups := [], current := [1], tracking := some "100" } (by decide) (by decide)
  have h2 := c2_segmenter_state_machine 3 (some "200")
    { groups := [], current := [1, 2], tracking := some "100" } (by decide) (by decide)
  exact ⟨h1.1 (Or.inl rfl), h2.2.1 "200" rfl (by decide), h1.2.2⟩

/-! ## Vendor resolution: search_vendor_by_signals (vendor_identifier.py)

The MongoDB registry lookups (get_vendor_by_website and friends, database.py) are
modelled as opaque-as-parameters lookup functions of a `VendorRegistry`; the
resolution logic around them is embedded faithfully. -/

/-- The signal dictionary produced by `extract_vendor_signals`; each field is either
a found string or absent (a Python `None`). -/
structure VendorSignals where
  vendor_email_id : Option String
  vendor_phone_number : Option String
  website : Option String
  vendor_name : Option String
  vendor_physical_address : Option String
  deriving Repr, DecidableEq

/-- The vendor registry collaborator: each lookup returns the matching vendor id or
nothing (database.py returns `str(doc["_id"])` or `None`). -/
structure VendorRegistry where
  get_vendor_by_email : String → Option String
  get_vendor_by_website : String → Option String
  get_vendor_by_address : String → Option String
  get_vendor_by_phone : String → Option String
  get_vendor_by_name : String → Option String

/-- Python truthiness of an optional string: `None` and `""` are falsy. -/
def strTruthy : Option String → Bool
  | none => false
  | some s => s ≠ ""

/-- Python `str.strip()` on a character list: drop whitespace from both ends. -/
def pyStripList (l : List Char) : List Char :=
  ((l.dropWhile Char.isWhitespace).reverse.dropWhile Char.isWhitespace).reverse

/-- Python `str.strip()`. -/
def pyStrip (s : String) : String := ⟨pyStripList s.toList⟩

/-- Python `str.lower()` (ASCII fragment). -/
def pyLower (s : String) : String := ⟨s.toList.map Char.toLower⟩

/-- `_normalize_name`: lowercase, strip, drop every character outside [a-z0-9]. -/
def normalize_name (name : String) : String :=
  ⟨(pyStrip (pyLower name)).toList.filter
    (fun c => (Char.ofNat 97 ≤ c ∧ c ≤ Char.ofNat 122) ∨
      (Char.ofNat 48 ≤ c ∧ c ≤ Char.ofNat 57))⟩

/-- `find_vendor_by_website`: exact lookup on the stripped url. -/
def find_vendor_by_website (reg : VendorRegistry) (extracted_url : String) :
    Option String :=
  if extracted_url = "" then none else reg.get_vendor_by_website (pyStrip extracted_url)

/-- `find_vendor_by_email`: exact lookup on the stripped email. -/
def find_vendor_by_email (reg : VendorRegistry) (extracted_email : String) :
    Option String :=
  if extracted_email = "" then none else reg.get_vendor_by_email (pyStrip extracted_email)

/-- `find_vendor_by_address`: exact lookup on the stripped address. -/
def find_vendor_by_address (reg : VendorRegistry) (extracted_addr : String) :
    Option String :=
  if extracted_addr = "" then none else reg.get_vendor_by_address (pyStrip extracted_addr)

/-- `find_vendor_by_phone`: strip non-digits, require at least 7 digits, exact
lookup on the digit string. -/
def find_vendor_by_phone (reg : VendorRegistry) (extracted_phone : String) :
    Option String :=
  let target : String := ⟨extracted_phone.toList.filter Char.isDigit⟩
  if target.length < 7 then none else reg.get_vendor_by_phone target

/-- `find_vendor_by_name`: exact lookup on the (already normalized) name. -/
def find_vendor_by_name (reg : VendorRegistry) (target : String) : Option String :=
  if target = "" then none else reg.get_vendor_by_name target

/-- The website stage of `search_vendor_by_signals` (attempted first). -/
def websiteStage (reg : VendorRegistry) (s : VendorSignals) : Option String :=
  if strTruthy s.website then find_vendor_by_website reg (s.website.getD "") else none

/-- The email stage (attempted when the website stage produced no match). -/
def emailStage (reg : VendorRegistry) (s : VendorSignals) : Option String :=
  if strTruthy s.vendor_email_id then
    find_vendor_by_email reg (s.vendor_email_id.getD "")
  else none

/-- The phone stage (digits-only comparison, minimum 7 digits). -/
def phoneStage (reg : VendorRegistry) (s : VendorSignals) : Option String :=
  if strTruthy s.vendor_phone_number then
    find_vendor_by_phone reg (s.vendor_phone_number.getD "")
  else none

/-- The physical-address stage. -/
def addressStage (reg : VendorRegistry) (s : VendorSignals) : Option String :=
  if strTruthy s.vendor_physical_address then
    find_vendor_by_address reg (s.vendor_physical_address.getD "")
  else none

/-- The normalized-name stage (alphanumeric-only lowercase, minimum length 3),
attempted last. -/
def nameStage (reg : VendorRegistry) (s : VendorSignals) : Option String :=
  if strTruthy s.vendor_name then
    let normalized := normalize_name (s.vendor_name.getD "")
    if 3 ≤ normalized.length then find_vendor_by_name reg normalized else none
  else none

/-- `search_vendor_by_signals`: try website, email, phone, address, name in order,
returning the first hit together with the `matched_by` tag. -/
def search_vendor_by_signals (reg : VendorRegistry) (s : VendorSignals) :
    Option (String × String) :=
  match websiteStage reg s with
  | some vid => some (vid, "website")
  | none =>
    match emailStage reg s with
    | some vid => some (vid, "email")
    | none =>
      match phoneStage reg s with
      | some vid => some (vid, "phone")
      | none =>
        match addressStage reg s with
        | some vid => some (vid, "address")
        | none =>
          match nameStage reg s with
          | some vid => some (vid, "name")
          | none => none

/-- The resolution order as the spec phrases it: an orElse chain of the five
stages, "each performed only if the prior one produced no match". -/
def prioritizedStageChain (reg : VendorRegistry) (s : VendorSignals) :
    Option (String × String) :=
  Option.or ((websiteStage reg s).map (fun v => (v, "website")))
    (Option.or ((emailStage reg s).map (fun v => (v, "email")))
      (Option.or ((phoneStage reg s).map (fun v => (v, "phone")))
        (Option.or ((addressStage reg s).map (fun v => (v, "address")))
          ((nameStage reg s).map (fun v => (v, "name"))))))

/-- Claim C3: vendor resolution consults the registry in the fixed priority order
website, email, phone (digits-only, minimum 7 digits), address, normalized name
(alphanumeric-only lowercase, minimum length 3), each stage only when every earlier
stage produced no match (the orElse chain); in particular a website hit wins over a
name hit for a different vendor. -/
theorem c3_signal_priority (reg : VendorRegistry) (s : VendorSignals) :
    (search_vendor_by_signals reg s = prioritizedStageChain reg s)
    ∧ (∀ v₁ v₂, websiteStage reg s = some v₁ → nameStage reg s = some v₂ →
        search_vendor_by_signals reg s = some (v₁, "website")) := by
  constructor
  · unfold search_vendor_by_signals prioritizedStageChain
    rcases websiteStage reg s with _ | w
    · rcases emailStage reg s with _ | e
      · rcases phoneStage reg s with _ | p
        · rcases addressStage reg s with _ | a
          · rcases nameStage reg s with _ | n <;> rfl
          · rfl
        · rfl
      · rfl
    · rfl
  · intro v₁ v₂ hw _
    unfold search_vendor_by_signals
    rw [hw]

/-- Concrete instance of claim C3: signals carrying both a website that matches
vendor V1 and a name that matches vendor V2 resolve to V1 with matched_by
"website". -/
theorem c3_signal_priority_witness :
    search_vendor_by_signals
      { get_vendor_by_email := fun _ => none
        get_vendor_by_website := fun u => if u = "acme.com" then some "V1" else none
        get_vendor_by_address := fun _ => none
        get_vendor_by_phone := fun _ => none
        get_vendor_by_name := fun n => if n = "acmefoods" then some "V2" else none }
      { vendor_email_id := none
        vendor_phone_number := none
        website := some "acme.com"
        vendor_name := some "Acme Foods"
        vendor_physical_address := none } = some ("V1", "website") := by
  exact (c3_signal_priority _ _).2 "V1" "V2" (by decide) (by decide)

/-! ## Phase-2 template validation: llm_phase2_generate_regex (vendor_identifier.py)

The JSON dict returned by the language model (already parsed; parse failures raise
Phase2ParseError, a different error) is modelled structurally: each value is either
a string or some non-string JSON value, each level either an object or not, and a
missing top-level key is `none`. -/

/-- A JSON value as far as validation inspects it: a string, or anything else. -/
inductive JVal where
  | jstr : String → JVal
  | jnonstr : JVal
  deriving Repr, DecidableEq

/-- A top-level entry of the phase-2 response: an object (a key/value list) or a
non-object value. -/
inductive JNode where
  | jobj : List (String × JVal) → JNode
  | jnonobj : JNode
  deriving Repr, DecidableEq

/-- The parsed phase-2 response restricted to the two keys validation reads;
`none` models a missing key. -/
structure Phase2Parsed where
  invoice_level : Option JNode
  line_item_level : Option JNode
  deriving Repr, DecidableEq

/-- Python `dict.get(k)`. -/
def dictLookup (d : List (String × JVal)) (k : String) : Option JVal :=
  (d.find? (fun p => p.1 == k)).map (fun p => p.2)

/-- Python `k in dict.keys()`. -/
def hasKey (d : List (String × JVal)) (k : String) : Bool :=
  d.any (fun p => p.1 == k)

/-- Whether the two characters ahead of a `(` read `?:` (a non-capturing group). -/
def isNonCapturingAhead : List Char → Bool
  | q :: c :: _ => q = Char.ofNat 63 && c = Char.ofNat 58
  | _ => false

/-- `_count_capture_groups`: occurrences of `(` not preceded by a backslash and not
followed by `?:` (the regex `(?<!\\)\((?!\?:)` scanned with findall). -/
def countCGAux : Option Char → List Char → Nat
  | _, [] => 0
  | prev, c :: rest =>
    (if c = Char.ofNat 40 && prev ≠ some (Char.ofNat 92) && !(isNonCapturingAhead rest)
      then 1 else 0) + countCGAux (some c) rest

/-- `_count_capture_groups` on a pattern string. -/
def count_capture_groups (pattern : String) : Nat :=
  countCGAux none pattern.toList

def strict_invoice_fields : List String :=
  ["invoice_number", "invoice_date", "invoice_total_amount"]

def required_invoice_keys : List String :=
  ["invoice_number", "invoice_date", "invoice_total_amount", "order_date"]

def marker_fields : List String :=
  ["line_item_block_start", "line_item_block_end"]

/-- The six fields the code strictly requires to be non-empty at line-item level:
they include the two block markers and exclude `unit`. -/
def strict_line_fields : List String :=
  ["line_item_block_start", "line_item_block_end", "description", "quantity",
    "unit_price", "line_total"]

def required_line_item_keys : List String :=
  ["line_item_block_start", "line_item_block_end", "description", "quantity",
    "unit", "unit_price", "line_total"]

/-- The loop body of invoice-level validation for one key: true iff the key
contributes to neither `empty_invoice_keys` nor `bad_group_keys`. -/
def invoiceFieldOk (inv : List (String × JVal)) (k : String) : Bool :=
  match dictLookup inv k with
  | some (JVal.jstr v) =>
    (!(strict_invoice_fields.contains k && pyStrip v == "")) &&
    (pyStrip v == "" || !(count_capture_groups v == 0))
  | _ => false

/-- The loop body of line-item-level validation for one key (markers are exempt
from the capture-group check). -/
def lineFieldOk (li : List (String × JVal)) (k : String) : Bool :=
  match dictLookup li k with
  | some (JVal.jstr v) =>
    (!(strict_line_fields.contains k && pyStrip v == "")) &&
    (pyStrip v == "" || marker_fields.contains k || !(count_capture_groups v == 0))
  | _ => false

/-- Invoice-level validation: the key must be an object with every required key
present and every per-key check passing. -/
def validate_invoice_level : Option JNode → Bool
  | some (JNode.jobj inv) =>
    required_invoice_keys.all (fun k => hasKey inv k) &&
    required_invoice_keys.all (fun k => invoiceFieldOk inv k)
  | _ => false

/-- Line-item-level validation. -/
def validate_line_item_level : Option JNode → Bool
  | some (JNode.jobj li) =>
    required_line_item_keys.all (fun k => hasKey li k) &&
    required_line_item_keys.all (fun k => lineFieldOk li k)
  | _ => false

/-- `llm_phase2_generate_regex` validation of an already-parsed response:
true means the template is accepted, false means Phase2ValidationError is raised. -/
def llm_phase2_template_ok (p : Phase2Parsed) : Bool :=
  validate_invoice_level p.invoice_level && validate_line_item_level p.line_item_level

/-- A present string value that is blank after stripping. -/
def blankStr : Option JVal → Bool
  | some (JVal.jstr v) => pyStrip v == ""
  | _ => false

/-- A missing value or one that is not a string. -/
def nonStringVal : Option JVal → Bool
  | some (JVal.jstr _) => false
  | _ => true

/-- A present, non-blank string pattern with zero capture groups. -/
def zeroGroupNonEmpty : Option JVal → Bool
  | some (JVal.jstr v) => !(pyStrip v == "") && count_capture_groups v == 0
  | _ => false

/-- The line-item fields claim C4 calls mandatory: "all except the two block
markers" (this is what the claim says; the code differs). -/
def claimed_mandatory_line_fields : List String :=
  ["description", "quantity", "unit", "unit_price", "line_total"]

/-- The error condition exactly as claim C4 states it: levels missing or not
objects, a required key missing, a claimed-mandatory field blank, or a non-empty
non-marker pattern with zero capture groups. -/
def phase2_error_per_claim (p : Phase2Parsed) : Bool :=
  match p.invoice_level, p.line_item_level with
  | some (JNode.jobj inv), some (JNode.jobj li) =>
    !(required_invoice_keys.all (fun k => hasKey inv k)) ||
    !(required_line_item_keys.all (fun k => hasKey li k)) ||
    strict_invoice_fields.any (fun k => blankStr (dictLookup inv k)) ||
    claimed_mandatory_line_fields.any (fun k => blankStr (dictLookup li k)) ||
    required_invoice_keys.any (fun k => zeroGroupNonEmpty (dictLookup inv k)) ||
    claimed_mandatory_line_fields.any (fun k => zeroGroupNonEmpty (dictLookup li k))
  | _, _ => true

/-- The invoice-level error condition as the code actually enforces it. -/
def invoice_level_error (inv : List (String × JVal)) : Bool :=
  !(required_invoice_keys.all (fun k => hasKey inv k)) ||
  required_invoice_keys.any (fun k =>
    nonStringVal (dictLookup inv k) ||
    (strict_invoice_fields.contains k && blankStr (dictLookup inv k)) ||
    zeroGroupNonEmpty (dictLookup inv k))

/-- The line-item-level error condition as the code actually enforces it: the six
strictly required fields include the markers and exclude `unit`, and markers are
exempt from the capture-group requirement. -/
def line_item_level_error (li : List (String × JVal)) : Bool :=
  !(required_line_item_keys.all (fun k => hasKey li k)) ||
  required_line_item_keys.any (fun k =>
    nonStringVal (dictLookup li k) ||
    (strict_line_fields.contains k && blankStr (dictLookup li k)) ||
    (!(marker_fields.contains k) && zeroGroupNonEmpty (dictLookup li k)))

/-- The amended claim-C4 error condition. -/
def phase2_error_amended (p : Phase2Parsed) : Bool :=
  match p.invoice_level, p.line_item_level with
  | some (JNode.jobj inv), some (JNode.jobj li) =>
    invoice_level_error inv || line_item_level_error li
  | _, _ => true

/-- An otherwise valid template whose `unit` pattern is the blank string. -/
def blankUnitTemplate : Phase2Parsed :=
  { invoice_level := some (JNode.jobj
      [("invoice_number", JVal.jstr "Invoice (\\d+)"),
        ("invoice_date", JVal.jstr "Date: (\\S+)"),
        ("invoice_total_amount", JVal.jstr "Total (\\S+)"),
        ("order_date", JVal.jstr "")])
    line_item_level := some (JNode.jobj
      [("line_item_block_start", JVal.jstr "ITEMS"),
        ("line_item_block_end", JVal.jstr "TOTAL"),
        ("description", JVal.jstr "(\\w+)"),
        ("quantity", JVal.jstr "(\\d+)"),
        ("unit", JVal.jstr ""),
        ("unit_price", JVal.jstr "(\\S+)"),
        ("line_total", JVal.jstr "(\\S+) T")]) }

/-- Counterexample to claim C4 as stated: a template whose `unit` field (a
non-marker line-item field, hence mandatory per the claim) is blank is claimed to
raise a fatal validation error, yet the code accepts it — `unit` is not among the
six strictly required line-item fields of the code. -/
theorem c4_validation_counterexample :
    llm_phase2_template_ok blankUnitTemplate = true
    ∧ phase2_error_per_claim blankUnitTemplate = true := by
  constructor <;> decide

theorem invoiceFieldOk_eq (inv : List (String × JVal)) (k : String) :
    invoiceFieldOk inv k
      = !(nonStringVal (dictLookup inv k)
          || (strict_invoice_fields.contains k && blankStr (dictLookup inv k))
          || zeroGroupNonEmpty (dictLookup inv k)) := by
  rcases h : dictLookup inv k with _ | v
  · simp [invoiceFieldOk, nonStringVal, blankStr, zeroGroupNonEmpty, h]
  · cases v with
    | jstr s =>
      simp only [invoiceFieldOk, nonStringVal, blankStr, zeroGroupNonEmpty, h]
      cases hb : (pyStrip s == "") <;>
        cases hs : strict_invoice_fields.contains k <;>
        cases hz : (count_capture_groups s == 0) <;> simp [hb, hs, hz]
    | jnonstr =>
      simp [invoiceFieldOk, nonStringVal, blankStr, zeroGroupNonEmpty, h]

theorem lineFieldOk_eq (li : List (String × JVal)) (k : String) :
    lineFieldOk li k
      = !(nonStringVal (dictLookup li k)
          || (strict_line_fields.contains k && blankStr (dictLookup li k))
          || (!(marker_fields.contains k) && zeroGroupNonEmpty (dictLookup li k))) := by
  rcases h : dictLookup li k with _ | v
  · simp [lineFieldOk, nonStringVal, blankStr, zeroGroupNonEmpty, h]
  · cases v with
    | jstr s =>
      simp only [lineFieldOk, nonStringVal, blankStr, zeroGroupNonEmpty, h]
      cases hb : (pyStrip s == "") <;>
        cases hs : strict_line_fields.contains k <;>
        cases hm : marker_fields.contains k <;>
        cases hz : (count_capture_groups s == 0) <;> simp [hb, hs, hm, hz]
    | jnonstr =>
      simp [lineFieldOk, nonStringVal, blankStr, zeroGroupNonEmpty, h]

theorem all_not_eq_not_any (l : List String) (f : String → Bool) :
    (l.all fun k => !(f k)) = !(l.any f) := by
  induction l with
  | nil => rfl
  | cons a l ih => simp [List.all_cons, List.any_cons, ih]

theorem validate_invoice_level_eq (inv : List (String × JVal)) :
    validate_invoice_level (some (JNode.jobj inv)) = !(invoice_level_error inv) := by
  have h := all_not_eq_not_any required_invoice_keys
    (fun k => nonStringVal (dictLookup inv k)
      || (strict_invoice_fields.contains k && blankStr (dictLookup inv k))
      || zeroGroupNonEmpty (dictLookup inv k))
  simp only [validate_invoice_level, invoice_level_error, invoiceFieldOk_eq]
  rw [h]
  simp only [Bool.not_or, Bool.not_not]

theorem validate_line_item_level_eq (li : List (String × JVal)) :
    validate_line_item_level (some (JNode.jobj li)) = !(line_item_level_error li) := by
  have h := all_not_eq_not_any required_line_item_keys
    (fun k => nonStringVal (dictLookup li k)
      || (strict_line_fields.contains k && blankStr (dictLookup li k))
      || (!(marker_fields.contains k) && zeroGroupNonEmpty (dictLookup li k)))
  simp only [validate_line_item_level, line_item_level_error, lineFieldOk_eq]
  rw [h]
  simp only [Bool.not_or, Bool.not_not]

/-- An accepted template whose description pattern has two capture groups. -/
def twoGroupTemplate : Phase2Parsed :=
  { invoice_level := some (JNode.jobj
      [("invoice_number", JVal.jstr "Invoice (\\d+)"),
        ("invoice_date", JVal.jstr "Date: (\\S+)"),
        ("invoice_total_amount", JVal.jstr "Total (\\S+)"),
        ("order_date", JVal.jstr "Ordered (\\S+)")])
    line_item_level := some (JNode.jobj
      [("line_item_block_start", JVal.jstr "ITEMS"),
        ("line_item_block_end", JVal.jstr "TOTAL"),
        ("description", JVal.jstr "(\\w+) (\\w+)"),
        ("quantity", JVal.jstr "(\\d+)"),
        ("unit", JVal.jstr "(?:CS|EA)()"),
        ("unit_price", JVal.jstr "(\\S+)"),
        ("line_total", JVal.jstr "(\\S+) T")]) }

/-- Claim C4 (amended): phase-2 validation raises a fatal validation error iff a
level is missing or not an object, a required key is missing or bound to a
non-string, one of the three mandatory invoice-level fields or the six strictly
required line-item fields (the two block markers, description, quantity,
unit_price, line_total — `unit` excluded) is blank, or a non-empty non-marker
pattern has zero capture groups; a pattern with more than one capture group is
never rejected (the error condition ignores group counts above zero), and the
two-capture-group template above is accepted. -/
theorem c4_validation_amended (p : Phase2Parsed) :
    (llm_phase2_template_ok p = false ↔ phase2_error_amended p = true)
    ∧ llm_phase2_template_ok twoGroupTemplate = true
    ∧ count_capture_groups "(\\w+) (\\w+)" = 2 := by
  refine ⟨?_, by decide, by decide⟩
  rcases p with ⟨il, ll⟩
  rcases il with _ | node <;> rcases ll with _ | node2
  · simp [llm_phase2_template_ok, phase2_error_amended, validate_invoice_level]
  · simp [llm_phase2_template_ok, phase2_error_amended, validate_invoice_level]
  · cases node <;>
      simp [llm_phase2_template_ok, phase2_error_amended, validate_line_item_level]
  · cases node with
    | jobj inv =>
      cases node2 with
      | jobj li =>
        simp only [llm_phase2_template_ok, phase2_error_amended,
          validate_invoice_level_eq, validate_line_item_level_eq]
        cases hA : invoice_level_error inv <;>
          cases hB : line_item_level_error li <;> simp
      | jnonobj =>
        simp [llm_phase2_template_ok, phase2_error_amended, validate_line_item_level]
    | jnonobj =>
      simp [llm_phase2_template_ok, phase2_error_amended, validate_invoice_level]

/-! ## Orchestration: identify_vendor_and_get_regex (vendor_identifier.py) and the
fallback in get_structured_data_from_text (build_dataframe.py)

Exceptions are modelled with `Except`; the language-model phases, the vendor
creation and the name lookup are oracles carried by an `IdentifyEnv`; the list of
`ExtCall`s records which external side-effecting collaborator calls were made.
`extract_vendor_signals` (pure regex heuristics over the document text) is
abstracted as the `signals` field of the environment. -/

/-- `vendor_master_data` as validated by phase 1 (only `vendor_name` is required;
the contact fields are optional and `None`-filled when absent). -/
structure VendorMasterData where
  vendor_name : Option String
  vendor_email_id : Option String
  vendor_phone_number : Option String
  vendor_physical_address : Option String
  vendor_website : Option String
  deriving Repr, DecidableEq

/-- The part of the phase-1 result consumed by the orchestrator (the
invoice_details and line_items keys are validated but not used downstream). -/
structure Phase1Result where
  vendor_master_data : VendorMasterData
  deriving Repr, DecidableEq

/-- A validated phase-2 template: the 11 patterns. As a Python dict with two keys
it is always truthy. -/
structure RegexTemplate where
  invoice_number : String
  invoice_date : String
  invoice_total_amount : String
  order_date : String
  line_item_block_start : String
  line_item_block_end : String
  quantity : String
  description : String
  unit : String
  unit_price : String
  line_total : String
  deriving Repr, DecidableEq

/-- External side-effecting calls the orchestrator can make. -/
inductive ExtCall where
  | phase1Call
  | phase2Call
  | createVendorCall (data : VendorMasterData)
  | saveRegexCall (vendor_id : String) (template : RegexTemplate)
  deriving Repr, DecidableEq

/-- Environment of one `identify_vendor_and_get_regex` run: the extracted signals,
the registry, the template store, the name lookup, the two LLM phases (an
`Except.error` models the raised Phase1/Phase2 error), and the id that
`create_vendor` would mint. -/
structure IdentifyEnv where
  signals : VendorSignals
  reg : VendorRegistry
  get_vendor_regex_patterns : String → List String
  get_vendor_name_by_id : String → Option String
  phase1 : Except String Phase1Result
  phase2 : Except String RegexTemplate
  create_vendor_id : String

/-- `find_vendor_name_by_id`: `None`-or-empty ids yield nothing. -/
def find_vendor_name_by_id (getName : String → Option String) (id : Option String) :
    Option String :=
  match id with
  | none => none
  | some i => if i = "" then none else getName i

/-- `get_regex_for_vendor`: empty vendor id short-circuits; otherwise the DB list
(`get_vendor_regex_patterns` returns `[]` when no template is stored). -/
def get_regex_for_vendor (gr : String → List String) (vendor_id : String) :
    Option (List String) :=
  if vendor_id = "" then none else some (gr vendor_id)

/-- The dictionary returned by `identify_vendor_and_get_regex`. -/
structure IdentifyResult where
  vendor_id : String
  vendor_name : Option String
  regex : Option (List String ⊕ RegexTemplate)
  created : Bool
  matched_by : Option String
  deriving Repr, DecidableEq

/-- `identify_vendor_and_get_regex`, returning the result (or raised error) and
the external calls performed. In the create-new-vendor branch the source looks the
display name up with the stale local `vendor_id` — which is `None` there — so the
name lookup receives `none` (vendor_identifier.py line 1151). -/
def identify_vendor_and_get_regex (env : IdentifyEnv) :
    Except String IdentifyResult × List ExtCall :=
  match search_vendor_by_signals env.reg env.signals with
  | some (vendor_id, matched_by) =>
    let vendor_name := find_vendor_name_by_id env.get_vendor_name_by_id (some vendor_id)
    match get_regex_for_vendor env.get_vendor_regex_patterns vendor_id with
    | some regex_list =>
      if regex_list ≠ [] then
        (Except.ok
          { vendor_id := vendor_id, vendor_name := vendor_name,
            regex := some (Sum.inl regex_list), created := false,
            matched_by := some matched_by }, [])
      else
        (Except.error "Vendor found — But no regex for that vendor found in DB", [])
    | none =>
      (Except.error "Vendor found — But no regex for that vendor found in DB", [])
  | none =>
    match env.phase1 with
    | Except.error e => (Except.error e, [ExtCall.phase1Call])
    | Except.ok phase1 =>
      let vendor := phase1.vendor_master_data
      match env.phase2 with
      | Except.error e => (Except.error e, [ExtCall.phase1Call, ExtCall.phase2Call])
      | Except.ok new_regexes =>
        if strTruthy vendor.vendor_name then
          let new_vendor_id := env.create_vendor_id
          let vendor_name := find_vendor_name_by_id env.get_vendor_name_by_id none
          (Except.ok
            { vendor_id := new_vendor_id, vendor_name := vendor_name,
              regex := some (Sum.inr new_regexes), created := true,
              matched_by := none },
            [ExtCall.phase1Call, ExtCall.phase2Call, ExtCall.createVendorCall vendor,
              ExtCall.saveRegexCall new_vendor_id new_regexes])
        else
          (Except.error "vendor_name required to save vendor.",
            [ExtCall.phase1Call, ExtCall.phase2Call])

/-- Claim C5: when the signals match a registered vendor but the registry returns
no saved template (the empty pattern list), identify_vendor_and_get_regex raises a
fatal error for the document and performs no external call at all — in particular
neither phase-1 nor phase-2 derivation. -/
theorem c5_known_vendor_missing_template (env : IdentifyEnv) (vid mb : String)
    (hsearch : search_vendor_by_signals env.reg env.signals = some (vid, mb))
    (hregex : env.get_vendor_regex_patterns vid = []) :
    identify_vendor_and_get_regex env
      = (Except.error "Vendor found — But no regex for that vendor found in DB", []) := by
  simp only [identify_vendor_and_get_regex, hsearch, get_regex_for_vendor]
  by_cases hv : vid = ""
  · simp [hv]
  · simp [hv, hregex]

/-- The registry and signals of the concrete claim-C5 instance: the website signal
matches vendor VID9, whose stored template list is empty. -/
def c5Env : IdentifyEnv :=
  { signals :=
      { vendor_email_id := none, vendor_phone_number := none,
        website := some "kitchen.com", vendor_name := none,
        vendor_physical_address := none }
    reg :=
      { get_vendor_by_email := fun _ => none
        get_vendor_by_website := fun u => if u = "kitchen.com" then some "VID9" else none
        get_vendor_by_address := fun _ => none
        get_vendor_by_phone := fun _ => none
        get_vendor_by_name := fun _ => none }
    get_vendor_regex_patterns := fun _ => []
    get_vendor_name_by_id := fun v => if v = "VID9" then some "Kitchen Co" else none
    phase1 := Except.error "phase 1 must not run"
    phase2 := Except.error "phase 2 must not run"
    create_vendor_id := "NEW" }

/-- Concrete instance of claim C5. -/
theorem c5_known_vendor_missing_template_witness :
    identify_vendor_and_get_regex c5Env
      = (Except.error "Vendor found — But no regex for that vendor found in DB", []) :=
  c5_known_vendor_missing_template c5Env "VID9" "website" (by decide) rfl

/-- The vendor master data the phase-1 oracle returns in the claim-C8 scenario. -/
def c8Vendor : VendorMasterData :=
  { vendor_name := some "Acme Supplies Inc", vendor_email_id := some "ap@acme.com",
    vendor_phone_number := none, vendor_physical_address := none,
    vendor_website := none }

/-- The template the phase-2 oracle returns in the claim-C8 scenario. -/
def c8Template : RegexTemplate :=
  { invoice_number := "Invoice (\\d+)", invoice_date := "Date: (\\S+)",
    invoice_total_amount := "Total (\\S+)", order_date := "",
    line_item_block_start := "ITEMS", line_item_block_end := "TOTAL",
    quantity := "(\\d+)", description := "(\\w+)", unit := "(?:CS|EA)()",
    unit_price := "(\\S+)", line_total := "(\\S+) T" }

/-- The claim-C8 environment: no signal matches any registered vendor, both LLM
phases succeed, create_vendor mints NEWVID, and the registry does know the name of
NEWVID. -/
def c8Env : IdentifyEnv :=
  { signals :=
      { vendor_email_id := none, vendor_phone_number := none,
        website := none, vendor_name := none, vendor_physical_address := none }
    reg :=
      { get_vendor_by_email := fun _ => none
        get_vendor_by_website := fun _ => none
        get_vendor_by_address := fun _ => none
        get_vendor_by_phone := fun _ => none
        get_vendor_by_name := fun _ => none }
    get_vendor_regex_patterns := fun _ => []
    get_vendor_name_by_id := fun v => if v = "NEWVID" then some "Acme Supplies Inc" else none
    phase1 := Except.ok { vendor_master_data := c8Vendor }
    phase2 := Except.ok c8Template
    create_vendor_id := "NEWVID" }

/-- Claim C8 evaluated at the failing input: with no registered match and both
phases succeeding, the orchestrator does persist the new vendor and the new
template and does return the new vendor id, the template and created=true — but
the returned vendor_name is `none`, not the newly created vendor's name, because
the source looks the name up with the stale pre-search `vendor_id` local (which is
None in this branch) even though the registry can resolve NEWVID to its name. -/
theorem c8_new_vendor_name_bug :
    identify_vendor_and_get_regex c8Env
      = (Except.ok
          { vendor_id := "NEWVID", vendor_name := none,
            regex := some (Sum.inr c8Template), created := true,
            matched_by := none },
        [ExtCall.phase1Call, ExtCall.phase2Call, ExtCall.createVendorCall c8Vendor,
          ExtCall.saveRegexCall "NEWVID" c8Template])
    ∧ c8Env.get_vendor_name_by_id "NEWVID" = some "Acme Supplies Inc" := by
  exact ⟨rfl, rfl⟩

/-- The hand-authored generic fallback template of get_structured_data_from_text
(build_dataframe.py). -/
def genericRegexTemplate : RegexTemplate :=
  { invoice_number := "(?:invoice|inv)[\\s#:]*([0-9]+)"
    invoice_date := "(?:date|dated)[\\s:]*(\\d\x7b1,2\x7d[-/]\\d\x7b1,2\x7d[-/]\\d\x7b2,4\x7d)"
    invoice_total_amount := "(?:total|amount due)[\\s:$]*(\\d+[.,]\\d\x7b2\x7d)"
    order_date := ""
    line_item_block_start := "(?:description|item)"
    line_item_block_end := "(?:subtotal|total)"
    quantity := "(\\d+\\.?\\d*)"
    description := "([A-Za-z0-9\\s,.-]+)"
    unit := "(EA|LB|CS|GAL|BOX|PKG)"
    unit_price := "\\$?(\\d+\\.\\d\x7b2\x7d)"
    line_total := "\\$?(\\d+\\.\\d\x7b2\x7d)" }

/-- The vendor context get_structured_data_from_text continues with. -/
structure VendorContext where
  vendor_id : String
  vendor_name : Option String
  regex : Option (List String ⊕ RegexTemplate)
  created : Option Bool
  identification_error : Option String
  deriving Repr, DecidableEq

/-- The vendor-resolution step of `get_structured_data_from_text`: blank input is
rejected up front; any exception raised by `identify_vendor_and_get_regex` is
caught and replaced by the Unknown-Vendor fallback context carrying a fresh id
(the `ObjectId()` the source mints, passed here as `fresh_vendor_id`), the generic
template and the error message. -/
def get_structured_vendor_context (extracted_text : String) (env : IdentifyEnv)
    (fresh_vendor_id : String) : Except String VendorContext :=
  if pyStrip extracted_text = "" then Except.error "Input text cannot be empty"
  else
    match (identify_vendor_and_get_regex env).1 with
    | Except.ok r =>
      Except.ok
        { vendor_id := r.vendor_id, vendor_name := r.vendor_name,
          regex := r.regex, created := some r.created, identification_error := none }
    | Except.error exc =>
      Except.ok
        { vendor_id := fresh_vendor_id, vendor_name := some "Unknown Vendor",
          regex := some (Sum.inr genericRegexTemplate), created := none,
          identification_error := some exc }

/-- Claim C10: for every non-blank input text, the vendor-resolution step of
get_structured_data_from_text never propagates an exception raised by
identify_vendor_and_get_regex: whenever the latter raises (for any reason),
processing continues with vendor_name "Unknown Vendor", the freshly generated
vendor id, the built-in generic 11-pattern template, and the resolution error
message recorded in the vendor context. -/
theorem c10_resolution_error_fallback (text : String) (env : IdentifyEnv)
    (freshId e : String)
    (htext : pyStrip text ≠ "")
    (herr : (identify_vendor_and_get_regex env).1 = Except.error e) :
    get_structured_vendor_context text env freshId
      = Except.ok
          { vendor_id := freshId, vendor_name := some "Unknown Vendor",
            regex := some (Sum.inr genericRegexTemplate), created := none,
            identification_error := some e } := by
  unfold get_structured_vendor_context
  rw [if_neg htext, herr]

/-- Concrete instance of claim C10 at the claim-C5 environment (a known vendor
with no stored template, one of the fatal resolution errors). -/
theorem c10_resolution_error_fallback_witness :
    get_structured_vendor_context "INVOICE 12 Kitchen Co kitchen.com" c5Env "FRESH1"
      = Except.ok
          { vendor_id := "FRESH1", vendor_name := some "Unknown Vendor",
            regex := some (Sum.inr genericRegexTemplate), created := none,
            identification_error :=
              some "Vendor found — But no regex for that vendor found in DB" } :=
  c10_resolution_error_fallback "INVOICE 12 Kitchen Co kitchen.com" c5Env "FRESH1"
    "Vendor found — But no regex for that vendor found in DB" (by decide) (by rfl)

/-! ## Record normalization: _parse_currency_amount, _clean_quantity and
_build_line_items_records (build_dataframe.py)

Python floats produced by `float()` on the cleaned decimal strings are modelled
exactly as decimal numbers: a `DecAmount` keeps the digits and the decimal-place
count. The modelled `float()` fragment covers optional sign, digits and one
decimal point — the literals this pipeline feeds it; exponent, inf/nan and
underscore literals are outside the fragment and treated as unparsable. -/

/-- A parsed decimal amount: the value is `num / 10 ^ exp`. -/
structure DecAmount where
  num : Int
  exp : Nat
  deriving Repr, DecidableEq

/-- The rational value of a `DecAmount`. -/
def DecAmount.toRat (d : DecAmount) : ℚ := (d.num : ℚ) / 10 ^ d.exp

/-- Digits to a natural number, most significant first. -/
def digitsToNat (l : List Char) : Nat :=
  l.foldl (fun acc c => acc * 10 + (c.toNat - 48)) 0

/-- Python `float()` on a cleaned string (sign, digits, at most one point). -/
def parseDecimalString (l : List Char) : Option DecAmount :=
  let signed : Bool × List Char :=
    match l with
    | c :: rest =>
      if c = Char.ofNat 45 then (true, rest)
      else if c = Char.ofNat 43 then (false, rest) else (false, l)
    | [] => (false, l)
  let neg := signed.1
  let l2 := signed.2
  let intPart := l2.takeWhile (fun c => c ≠ Char.ofNat 46)
  match l2.dropWhile (fun c => c ≠ Char.ofNat 46) with
  | [] =>
    if !intPart.isEmpty && intPart.all Char.isDigit then
      some { num := (if neg then -1 else 1) * (digitsToNat intPart : Int), exp := 0 }
    else none
  | _ :: frac =>
    if frac.contains (Char.ofNat 46) then none
    else if (intPart ++ frac).isEmpty then none
    else if intPart.all Char.isDigit && frac.all Char.isDigit then
      some
        { num := (if neg then -1 else 1) * (digitsToNat (intPart ++ frac) : Int),
          exp := frac.length }
    else none

/-- A character removed by the cleaning regex `[€$£¥\s]`. -/
def isCurrencySymbolOrSpace (c : Char) : Bool :=
  c = Char.ofNat 8364 || c = Char.ofNat 36 || c = Char.ofNat 163 ||
    c = Char.ofNat 165 || c.isWhitespace

/-- Index of the last occurrence of a character (Python `str.rfind`, present
case). -/
def lastIndexOfAux (c : Char) : List Char → Nat → Option Nat
  | [], _ => none
  | x :: rest, i =>
    match lastIndexOfAux c rest (i + 1) with
    | some j => some j
    | none => if x = c then some i else none

def lastIndexOf (c : Char) (l : List Char) : Option Nat := lastIndexOfAux c l 0

/-- `_parse_currency_amount`: strip currency symbols and whitespace, disambiguate
comma versus period (the later of the two is the decimal separator; a lone comma
followed by exactly two digits is decimal, otherwise thousands), then parse;
missing or unparsable input yields `none`. -/
def parse_currency_amount (amount_str : Option String) : Option DecAmount :=
  match amount_str with
  | none => none
  | some s =>
    if s = "" then none
    else
      let cleaned := s.toList.filter (fun c => !(isCurrencySymbolOrSpace c))
      let hasComma := cleaned.contains (Char.ofNat 44)
      let hasPeriod := cleaned.contains (Char.ofNat 46)
      let cleaned2 :=
        if hasComma && hasPeriod then
          if (lastIndexOf (Char.ofNat 46) cleaned).getD 0
              < (lastIndexOf (Char.ofNat 44) cleaned).getD 0 then
            (cleaned.filter (fun c => c ≠ Char.ofNat 46)).map
              (fun c => if c = Char.ofNat 44 then Char.ofNat 46 else c)
          else
            cleaned.filter (fun c => c ≠ Char.ofNat 44)
        else if hasComma then
          let idx := (lastIndexOf (Char.ofNat 44) cleaned).getD 0
          if cleaned.length - idx - 1 = 2 then
            cleaned.map (fun c => if c = Char.ofNat 44 then Char.ofNat 46 else c)
          else
            cleaned.filter (fun c => c ≠ Char.ofNat 44)
        else cleaned
      parseDecimalString cleaned2

/-- Claim C6: currency parsing strips currency symbols and whitespace, applies the
separator heuristics (trailing 2-digit group after the last separator is the
decimal part, the other separator is thousands), and yields an absent value —
None, not zero — for missing or unparsable input; in particular the three spec
examples all parse to 1234.56. -/
theorem c6_currency_parsing :
    parse_currency_amount (some "$1,234.56") = some { num := 123456, exp := 2 }
    ∧ parse_currency_amount (some "€1.234,56") = some { num := 123456, exp := 2 }
    ∧ parse_currency_amount (some "1,234.56") = some { num := 123456, exp := 2 }
    ∧ DecAmount.toRat { num := 123456, exp := 2 } = (1234.56 : ℚ)
    ∧ parse_currency_amount (some "$ 12.50") = some { num := 1250, exp := 2 }
    ∧ parse_currency_amount (some "1,234") = some { num := 1234, exp := 0 }
    ∧ parse_currency_amount (some "0,99") = some { num := 99, exp := 2 }
    ∧ parse_currency_amount none = none
    ∧ parse_currency_amount (some "") = none
    ∧ parse_currency_amount (some "abc") = none := by
  refine ⟨by decide, by decide, by decide, ?_, by decide, by decide, by decide,
    rfl, by decide, by decide⟩
  norm_num [DecAmount.toRat]

/-- One raw line item as produced by apply_regex_extraction: five optional raw
string fields. -/
structure RawLineItem where
  quantity : Option String
  description : Option String
  unit : Option String
  unit_price : Option String
  line_total : Option String
  deriving Repr, DecidableEq

/-- `_clean_quantity`: drop commas, strip, parse as a number; missing or
unparsable yields 0.0. -/
def clean_quantity (val : Option String) : DecAmount :=
  match val with
  | none => { num := 0, exp := 0 }
  | some s =>
    match parseDecimalString
        (pyStripList (s.toList.filter (fun c => c ≠ Char.ofNat 44))) with
    | some d => d
    | none => { num := 0, exp := 0 }

/-- A normalized line-item record (the schema fields the numbering claim needs;
invoice_id and vendor_name are constants over one call). -/
structure LineItemRecord where
  category : String
  quantity : DecAmount
  unit : Option String
  description : String
  unit_price : Option DecAmount
  line_total : Option DecAmount
  line_number : Nat
  deriving Repr, DecidableEq

/-- The `for idx, item in enumerate(extracted_li_data)` loop of
`_build_line_items_records`: items with a missing or blank description are
skipped, the category collaborator returning nothing is a fatal error, and the
emitted record carries line_number = idx + 1 where idx is the raw-list index. -/
def build_line_items_go (cat : String → Option String) :
    Nat → List RawLineItem → Except String (List LineItemRecord)
  | _, [] => Except.ok []
  | idx, item :: rest =>
    match item.description with
    | none => build_line_items_go cat (idx + 1) rest
    | some d =>
      let description := pyStrip d
      if description = "" then build_line_items_go cat (idx + 1) rest
      else
        match cat description with
        | none => Except.error ("Could not determine category for: " ++ description)
        | some category =>
          match build_line_items_go cat (idx + 1) rest with
          | Except.error e => Except.error e
          | Except.ok recs =>
            Except.ok (
              { category := category,
                quantity := clean_quantity item.quantity,
                unit := item.unit,
                description := description,
                unit_price := parse_currency_amount item.unit_price,
                line_total := parse_currency_amount item.line_total,
                line_number := idx + 1 } :: recs)

/-- `_build_line_items_records` (category lookup abstracted as `cat`). -/
def build_line_items_records (cat : String → Option String)
    (items : List RawLineItem) : Except String (List LineItemRecord) :=
  build_line_items_go cat 0 items

/-- Whether a raw item survives the description filter. -/
def keptItem (it : RawLineItem) : Bool :=
  match it.description with
  | some d => !(pyStrip d == "")
  | none => false

/-- A raw item whose description is blank (dropped by normalization). -/
def blankDescItem : RawLineItem :=
  { quantity := some "1", description := some "   ", unit := none,
    unit_price := none, line_total := some "5.00" }

/-- A kept raw item. -/
def widgetItem : RawLineItem :=
  { quantity := some "2", description := some "Widget A", unit := some "EA",
    unit_price := some "3.00", line_total := some "6.00" }

/-- The record normalization emits for widgetItem when it sits at raw index 1. -/
def widgetRecordAt2 : LineItemRecord :=
  { category := "Misc",
    quantity := { num := 2, exp := 0 },
    unit := some "EA",
    description := "Widget A",
    unit_price := some { num := 300, exp := 2 },
    line_total := some { num := 600, exp := 2 },
    line_number := 2 }

/-- Counterexample to claim C7 as stated: with a blank-description raw item in
front of one kept item, the single emitted record carries line_number 2 — the raw
enumerate index plus one — not the 1-based sequential index 1 over kept items the
claim requires. -/
theorem c7_line_numbering_counterexample :
    build_line_items_records (fun _ => some "Misc") [blankDescItem, widgetItem]
      = Except.ok [widgetRecordAt2]
    ∧ widgetRecordAt2.line_number = 2 ∧ (2 : Nat) ≠ 1 := by
  exact ⟨rfl, rfl, by decide⟩

theorem build_line_items_go_spec (cat : String → Option String)
    (items : List RawLineItem) :
    ∀ (idx : Nat) (recs : List LineItemRecord),
    build_line_items_go cat idx items = Except.ok recs →
    recs.map (fun r => r.line_number)
      = ((List.enumFrom idx items).filter (fun p => keptItem p.2)).map
          (fun p => p.1 + 1) := by
  induction items with
  | nil =>
    intro idx recs h
    simp only [build_line_items_go] at h
    cases h
    simp
  | cons item rest ih =>
    intro idx recs h
    rw [List.enumFrom_cons, List.filter_cons]
    match hd : item.description with
    | none =>
      simp only [build_line_items_go, hd] at h
      have : keptItem (idx, item).2 = false := by simp [keptItem, hd]
      rw [this, if_neg Bool.false_ne_true]
      exact ih (idx + 1) recs h
    | some d =>
      by_cases hblank : pyStrip d = ""
      · simp only [build_line_items_go, hd, hblank, if_pos rfl] at h
        have : keptItem (idx, item).2 = false := by simp [keptItem, hd, hblank]
        rw [this, if_neg Bool.false_ne_true]
        exact ih (idx + 1) recs h
      · have hkept : keptItem (idx, item).2 = true := by simp [keptItem, hd, hblank]
        rw [hkept, if_pos rfl]
        simp only [build_line_items_go, hd, if_neg hblank] at h
        match hc : cat (pyStrip d) with
        | none => rw [hc] at h; cases h
        | some category =>
          rw [hc] at h
          match hrec : build_line_items_go cat (idx + 1) rest with
          | Except.error e => rw [hrec] at h; cases h
          | Except.ok recs2 =>
            rw [hrec] at h
            cases h
            simp only [List.map_cons]
            rw [ih (idx + 1) recs2 hrec]

/-- Claim C7 (amended): line_number of each kept record equals its raw-list
enumerate position plus one — assigned before filtering, so kept records carry
strictly increasing numbers that skip the positions of dropped raw items, and
equal 1..k only when no raw item before the last kept one was dropped. -/
theorem c7_line_numbering_amended (cat : String → Option String)
    (items : List RawLineItem) (recs : List LineItemRecord)
    (h : build_line_items_records cat items = Except.ok recs) :
    recs.map (fun r => r.line_number)
      = ((List.enumFrom 0 items).filter (fun p => keptItem p.2)).map
          (fun p => p.1 + 1) :=
  build_line_items_go_spec cat items 0 recs h

/-- Concrete instance of amended claim C7 at the counterexample input: the kept
record numbers are the raw positions 2 of the surviving item. -/
theorem c7_line_numbering_amended_witness :
    [widgetRecordAt2].map (fun r => r.line_number)
      = ((List.enumFrom 0 [blankDescItem, widgetItem]).filter
          (fun p => keptItem p.2)).map (fun p => p.1 + 1)
    ∧ [widgetRecordAt2].map (fun r => r.line_number) = [2] := by
  refine ⟨c7_line_numbering_amended (fun _ => some "Misc")
    [blankDescItem, widgetItem] [widgetRecordAt2] rfl, rfl⟩

/-! ## PDF splitting: split_pdf_by_page_groups (regularize_file.py)

The filesystem is a state: whether the original PDF is still present, plus the
list of output files. Each group is written to a temporary file and atomically
replaced onto its final name, so at this abstraction a write either creates the
final output file or fails leaving nothing; the failure oracle `failAt` says which
write operation (counting processed non-empty groups), or — at index equal to the
number of writes — the final unlink of the original, raises. On any exception the
source unlinks every created output and re-raises; cleanup unlinks are assumed to
succeed. -/

structure FSState where
  originalPresent : Bool
  outputs : List String
  deriving Repr, DecidableEq

/-- The output filename for one non-empty page group:
`{stem}-page{start}.pdf` or `{stem}-page{start}-{end}.pdf`. -/
def groupFilename (base_name : String) (group : List Nat) : String :=
  let start := group.headD 0
  let stop := group.getLastD 0
  if start = stop then base_name ++ "-page" ++ toString start ++ ".pdf"
  else base_name ++ "-page" ++ toString start ++ "-" ++ toString stop ++ ".pdf"

/-- The writing loop: empty groups are skipped; a failing write raises, handing
the already-created files to the handler; success returns the write count and the
created files. -/
def writeOutputs (base_name : String) (failAt : Option Nat) :
    List (List Nat) → Nat → List String → Except (List String) (Nat × List String)
  | [], n, created => Except.ok (n, created)
  | g :: rest, n, created =>
    if g = [] then writeOutputs base_name failAt rest n created
    else if failAt = some n then Except.error created
    else writeOutputs base_name failAt rest (n + 1)
      (created ++ [groupFilename base_name g])

/-- `split_pdf_by_page_groups` over the filesystem state (initially the original
is present and no outputs exist): on full success the original is unlinked; on
any exception every created file is unlinked and the original is kept. -/
def split_pdf_by_page_groups (base_name : String) (groups : List (List Nat))
    (failAt : Option Nat) : Bool × FSState :=
  match writeOutputs base_name failAt groups 0 [] with
  | Except.error created =>
    (false, { originalPresent := true,
              outputs := created.filter (fun f => !(created.contains f)) })
  | Except.ok (n, created) =>
    if failAt = some n then
      (false, { originalPresent := true,
                outputs := created.filter (fun f => !(created.contains f)) })
    else
      (true, { originalPresent := false, outputs := created })

theorem filter_not_contains_self (l : List String) :
    l.filter (fun f => !(l.contains f)) = [] := by
  rw [List.filter_eq_nil_iff]
  intro a ha
  simp [ha]

theorem writeOutputs_ok_of_none (base_name : String) (groups : List (List Nat)) :
    ∀ (n : Nat) (created : List String),
    ∃ n2, writeOutputs base_name none groups n created
      = Except.ok (n2,
          created ++ (groups.filter (fun g => g ≠ [])).map (groupFilename base_name)) := by
  induction groups with
  | nil =>
    intro n created
    exact ⟨n, by simp [writeOutputs]⟩
  | cons g rest ih =>
    intro n created
    by_cases hg : g = []
    · rcases ih n created with ⟨n2, h⟩
      exact ⟨n2, by simp [writeOutputs, hg, h]⟩
    · rcases ih (n + 1) (created ++ [groupFilename base_name g]) with ⟨n2, h⟩
      refine ⟨n2, ?_⟩
      rw [show writeOutputs base_name none (g :: rest) n created
          = writeOutputs base_name none rest (n + 1)
              (created ++ [groupFilename base_name g]) by simp [writeOutputs, hg]]
      rw [h]
      simp [List.filter_cons, hg]

theorem writeOutputs_cases (base_name : String) (failAt : Option Nat)
    (groups : List (List Nat)) :
    ∀ (n : Nat) (created : List String),
    (∃ n2, writeOutputs base_name failAt groups n created
        = Except.ok (n2,
            created ++ (groups.filter (fun g => g ≠ [])).map (groupFilename base_name)))
    ∨ (∃ c, writeOutputs base_name failAt groups n created = Except.error c) := by
  induction groups with
  | nil =>
    intro n created
    exact Or.inl ⟨n, by simp [writeOutputs]⟩
  | cons g rest ih =>
    intro n created
    by_cases hg : g = []
    · rcases ih n created with ⟨n2, h⟩ | ⟨c, h⟩
      · exact Or.inl ⟨n2, by simp [writeOutputs, hg, h]⟩
      · exact Or.inr ⟨c, by simp [writeOutputs, hg, h]⟩
    · by_cases hf : failAt = some n
      · exact Or.inr ⟨created, by simp [writeOutputs, hg, hf]⟩
      · rcases ih (n + 1) (created ++ [groupFilename base_name g]) with ⟨n2, h⟩ | ⟨c, h⟩
        · refine Or.inl ⟨n2, ?_⟩
          rw [show writeOutputs base_name failAt (g :: rest) n created
              = writeOutputs base_name failAt rest (n + 1)
                  (created ++ [groupFilename base_name g]) by simp [writeOutputs, hg, hf]]
          rw [h]
          simp [List.filter_cons, hg]
        · refine Or.inr ⟨c, ?_⟩
          rw [show writeOutputs base_name failAt (g :: rest) n created
              = writeOutputs base_name failAt rest (n + 1)
                  (created ++ [groupFilename base_name g]) by simp [writeOutputs, hg, hf]]
          exact h

/-- Claim C9: split_pdf_by_page_groups is all-or-nothing with respect to the
source: every run either succeeds producing exactly one output per non-empty
group — named {stem}-page{start}.pdf for single-page groups and
{stem}-page{start}-{end}.pdf for multi-page groups — with the original removed,
or fails with every created output deleted and the original intact; and a run
whose writes and final unlink all succeed is of the first kind. -/
theorem c9_split_all_or_nothing (base_name : String) (groups : List (List Nat))
    (failAt : Option Nat) :
    (split_pdf_by_page_groups base_name groups failAt
        = (true,
          { originalPresent := false,
            outputs := (groups.filter (fun g => g ≠ [])).map (groupFilename base_name) })
      ∨ split_pdf_by_page_groups base_name groups failAt
        = (false, { originalPresent := true, outputs := [] }))
    ∧ (failAt = none →
      split_pdf_by_page_groups base_name groups failAt
        = (true,
          { originalPresent := false,
            outputs := (groups.filter (fun g => g ≠ [])).map (groupFilename base_name) }))
    ∧ (∀ s : Nat, groupFilename base_name [s]
        = base_name ++ "-page" ++ toString s ++ ".pdf")
    ∧ (∀ (g : List Nat) (s t : Nat), g.headD 0 = s → g.getLastD 0 = t → s ≠ t →
      groupFilename base_name g
        = base_name ++ "-page" ++ toString s ++ "-" ++ toString t ++ ".pdf") := by
  refine ⟨?_, ?_, ?_, ?_⟩
  · rcases writeOutputs_cases base_name failAt groups 0 [] with ⟨n2, h⟩ | ⟨c, h⟩
    · by_cases hf : failAt = some n2
      · right
        simp only [split_pdf_by_page_groups, h, if_pos hf]
        rw [filter_not_contains_self]
      · left
        simp only [split_pdf_by_page_groups, h, if_neg hf]
        simp
    · right
      simp only [split_pdf_by_page_groups, h]
      rw [filter_not_contains_self]
  · intro hf
    subst hf
    rcases writeOutputs_ok_of_none base_name groups 0 [] with ⟨n2, h⟩
    simp only [split_pdf_by_page_groups, h, if_neg (by simp : ¬(none = some n2))]
    simp
  · intro s
    simp [groupFilename]
  · intro g s t hs ht hst
    simp only [groupFilename]
    rw [hs, ht, if_neg hst]

/-- Concrete instance of claim C9: two non-empty groups written without failure,
and the single-page filename shape. -/
theorem c9_split_all_or_nothing_witness :
    split_pdf_by_page_groups "invoice" [[1, 2], [3]] none
      = (true,
        { originalPresent := false,
          outputs := ["invoice-page1-2.pdf", "invoice-page3.pdf"] })
    ∧ groupFilename "invoice" [3] = "invoice-page3.pdf" := by
  constructor
  · exact (c9_split_all_or_nothing "invoice" [[1, 2], [3]] none).2.1 rfl
  · exact (c9_split_all_or_nothing "invoice" [[1, 2], [3]] none).2.2.1 3

end InvoiceAutomation
